import Mathlib

/-!
Shallow embedding of `vm_inventory.py`: a script that collects VM metadata
from Azure and GCP CLI tools and writes a CSV report.

JSON string fields are modelled as `Option String` (`none` = field absent).
JSON objects that may be `null` (Azure `tags`, GCP `labels`) are modelled as
`Option (Option (List (String × String)))`: the outer option is field
presence, the inner one is `null` versus an object; the object itself is an
association list in insertion order with last-wins lookup (the semantics of
Python dicts produced by `json.loads`).

Python truthiness on strings ("" is falsy) is modelled by `pyOrS` /
`pyOrOptS`; raised exceptions are modelled with `Except String`.
-/

set_option autoImplicit false

namespace VmInventory

/-- Python `str.lower()`, as an executable character map (the script only
compares lowercased names for equality). -/
def pyLower (s : String) : String :=
  ⟨s.data.map Char.toLower⟩

/-- Python `a or b` on strings: `""` is falsy. -/
def pyOrS (a b : String) : String :=
  if a = "" then b else a

/-- Python `a or b` where `a` is `None` or a string and `b` is a string:
`None` and `""` are falsy. -/
def pyOrOptS (a : Option String) (b : String) : String :=
  match a with
  | none => b
  | some s => if s = "" then b else s

/-- Lookup in a Python dict rendered as an association list in insertion
order: `json.loads` keeps the last occurrence of a duplicated key, so the
lookup takes the last matching entry. -/
def pyDictGet (l : List (String × String)) (k : String) : Option String :=
  (l.reverse.find? (fun p => p.1 == k)).map (·.2)

/-- Python `d[k] = v` on a dict rendered as an association list: replace the
value in place if the key is present, else append the new pair. -/
def dictInsert (l : List (String × String)) (k : String) (v : String) :
    List (String × String) :=
  if l.any (fun p => p.1 == k) then
    l.map (fun p => if p.1 == k then (k, v) else p)
  else
    l ++ [(k, v)]

/-- Lookup in an association-list dict (used for `all_subscriptions`):
last-wins, matching Python dict semantics. -/
def dictLookup (l : List (String × String)) (k : String) : Option String :=
  (l.reverse.find? (fun p => p.1 == k)).map (·.2)

/-- The `VmRecord` dataclass of `vm_inventory.py`. -/
structure VmRecord where
  cloud : String
  subscription_or_project : String
  resource_group_or_project : String
  name : String
  status : String
  owner : Option String
  cleardata : Option String
  environment : Option String
deriving Repr, DecidableEq

/-- `VmRecord.to_row`: optional fields are coerced with Python `or ""`. -/
def VmRecord.to_row (r : VmRecord) : List String :=
  [r.cloud, r.subscription_or_project, r.resource_group_or_project,
   r.name, r.status,
   pyOrOptS r.owner "", pyOrOptS r.cleardata "", pyOrOptS r.environment ""]

/-- `CSV_HEADERS` of `vm_inventory.py`. -/
def CSV_HEADERS : List String :=
  ["cloud", "subscription_or_project", "resource_group_or_project",
   "vm_name", "status", "owner", "cleardata", "environment"]

/-- One element of the JSON array returned by `az account list`. -/
structure Account where
  id : String
  name : Option String
deriving Repr, DecidableEq

/-- The fields of an Azure VM JSON object that `fetch_azure_vms` reads. -/
structure AzureVm where
  tags : Option (Option (List (String × String)))
  resourceGroup : Option String
  name : Option String
  powerState : Option String
  provisioningState : Option String
deriving Repr, DecidableEq

/-- The fields of a GCP instance JSON object that `fetch_gcp_vms` reads. -/
structure GcpInstance where
  labels : Option (Option (List (String × String)))
  name : Option String
  status : Option String
deriving Repr, DecidableEq

/-- `vm.get("tags", {}) or {}`: absent or `null` tags collapse to the empty
dict. -/
def AzureVm.effTags (vm : AzureVm) : List (String × String) :=
  (vm.tags.join).getD []

/-- `instance.get("labels", {}) or {}`. -/
def GcpInstance.effLabels (inst : GcpInstance) : List (String × String) :=
  (inst.labels.join).getD []

/-- `vm.get("powerState") or vm.get("provisioningState", "unknown")`. -/
def AzureVm.statusOf (vm : AzureVm) : String :=
  match vm.powerState with
  | some s => if s = "" then vm.provisioningState.getD "unknown" else s
  | none => vm.provisioningState.getD "unknown"

/-- The record built for one Azure VM in the loop of `fetch_azure_vms`. -/
def mapAzureVm (subId subName : String) (vm : AzureVm) : VmRecord :=
  { cloud := "azure"
    subscription_or_project := pyOrS subName subId
    resource_group_or_project := vm.resourceGroup.getD ""
    name := vm.name.getD ""
    status := vm.statusOf
    owner := pyDictGet vm.effTags "owner"
    cleardata := pyDictGet vm.effTags "cleardata"
    environment := pyDictGet vm.effTags "environment" }

/-- The record built for one GCP instance in the loop of `fetch_gcp_vms`. -/
def mapGcpInstance (project : String) (inst : GcpInstance) : VmRecord :=
  { cloud := "gcp"
    subscription_or_project := project
    resource_group_or_project := project
    name := inst.name.getD ""
    status := inst.status.getD "unknown"
    owner := pyDictGet inst.effLabels "owner"
    cleardata := pyDictGet inst.effLabels "cleardata"
    environment := pyDictGet inst.effLabels "environment" }

/-- The external world the script talks to through `run_json_command`:
each call either yields parsed JSON (already shaped) or raises
(`CommandFailed` / `MalformedOutput`), modelled as `Except String`. -/
structure World where
  azAccountList : Except String (List Account)
  azVmList : String → Except String (List AzureVm)
  gcloudList : String → Except String (List GcpInstance)

/-- `fetch_azure_subscriptions`: the dict comprehension
`{account["id"]: account.get("name", account["id"])}`. -/
def buildSubs (accounts : List Account) : List (String × String) :=
  accounts.foldl (fun d a => dictInsert d a.id (a.name.getD a.id)) []

/-- The `ValueError` message raised by `resolve_requested_subscriptions`. -/
def unknownSubMsg (v : String) : String :=
  "Azure subscription '" ++ v ++ "' is not available in the current context"

/-- The loop body of `resolve_requested_subscriptions`: `resolved` is the
accumulating dict. The inner `KeyError` arm mirrors Python's
`all_subscriptions[sub_id]` (it is unreachable, proved below). -/
def resolveLoop (subs : List (String × String)) :
    List String → List (String × String) →
    Except String (List (String × String))
  | [], resolved => .ok resolved
  | v :: vs, resolved =>
    match dictLookup subs v with
    | some name => resolveLoop subs vs (dictInsert resolved v name)
    | none =>
      match subs.reverse.find? (fun q => pyLower q.2 == pyLower v) with
      | some q =>
        match dictLookup subs q.1 with
        | some name => resolveLoop subs vs (dictInsert resolved q.1 name)
        | none => .error ("KeyError: " ++ q.1)
      | none => .error (unknownSubMsg v)

/-- `resolve_requested_subscriptions`: `if not requested` catches both
`None` and the empty list. -/
def resolveRequested (requested : Option (List String))
    (subs : List (String × String)) :
    Except String (List (String × String)) :=
  match requested with
  | none => .ok subs
  | some [] => .ok subs
  | some (v :: vs) => resolveLoop subs (v :: vs) []

/-- The per-subscription loop of `fetch_azure_vms`. -/
def azureLoop (w : World) :
    List (String × String) → Except String (List VmRecord)
  | [] => .ok []
  | (subId, subName) :: rest =>
    match w.azVmList subId with
    | .error e => .error e
    | .ok vms =>
      match azureLoop w rest with
      | .error e => .error e
      | .ok rs => .ok (vms.map (mapAzureVm subId subName) ++ rs)

/-- `fetch_azure_vms`. -/
def fetchAzureVms (w : World) (filters : Option (List String)) :
    Except String (List VmRecord) :=
  match w.azAccountList with
  | .error e => .error e
  | .ok accounts =>
    match resolveRequested filters (buildSubs accounts) with
    | .error e => .error e
    | .ok scopes => azureLoop w scopes

/-- The argument vector of the `gcloud` invocation in `fetch_gcp_vms`. -/
def gcloudCmd (p : String) : List String :=
  ["gcloud", "compute", "instances", "list", "--project", p,
   "--format", "json"]

/-- `fetch_gcp_vms`, also returning the trace of external commands it
invokes (records accumulated before a later failure are discarded when the
exception propagates, as in Python). -/
def fetchGcpVms (w : World) :
    List String → List (List String) × Except String (List VmRecord)
  | [] => ([], .ok [])
  | p :: ps =>
    match w.gcloudList p with
    | .error e => ([gcloudCmd p], .error e)
    | .ok instances =>
      match fetchGcpVms w ps with
      | (trace, .error e) => (gcloudCmd p :: trace, .error e)
      | (trace, .ok rs) =>
        (gcloudCmd p :: trace, .ok (instances.map (mapGcpInstance p) ++ rs))

/-- The Azure arm of `main`: records contributed and stderr lines printed. -/
def azureRecordsOf (w : World) (filters : Option (List String)) :
    List VmRecord × List String :=
  match fetchAzureVms w filters with
  | .ok rs => (rs, [])
  | .error e => ([], ["Failed to retrieve Azure VMs: " ++ e])

/-- The GCP arm of `main`. -/
def gcpRecordsOf (w : World) (projects : List String) :
    List VmRecord × List String :=
  match (fetchGcpVms w projects).2 with
  | .ok rs => (rs, [])
  | .error e => ([], ["Failed to retrieve GCP VMs: " ++ e])

/-- The aggregate record list assembled by `main`
(`args.gcp_project or []` turns an absent repeatable flag into `[]`). -/
def recordsOf (w : World) (azFilters gcpProjects : Option (List String)) :
    List VmRecord :=
  (azureRecordsOf w azFilters).1 ++ (gcpRecordsOf w (gcpProjects.getD [])).1

/-- The CSV content written by `write_csv`. -/
def csvOf (records : List VmRecord) : List (List String) :=
  CSV_HEADERS :: records.map VmRecord.to_row

/-- Observable outcome of one run of `main`. -/
structure RunResult where
  exitCode : Nat
  written : Option (List (List String))
  stderrLines : List String
deriving Repr, DecidableEq

/-- `main`: fetch Azure, fetch GCP (each failure caught and logged), then
either exit 1 with no file or write the CSV and exit 0. -/
def mainRun (w : World) (azFilters gcpProjects : Option (List String)) :
    RunResult :=
  let records := recordsOf w azFilters gcpProjects
  let errs := (azureRecordsOf w azFilters).2 ++
    (gcpRecordsOf w (gcpProjects.getD [])).2
  if records = [] then
    ⟨1, none, errs ++ ["No VMs found or all queries failed; no CSV written."]⟩
  else
    ⟨0, some (csvOf records), errs⟩

/-! ### Dictionary lemmas -/

/-- Pairs recorded in the accumulating `resolved` dict are consistent with
`all_subscriptions`: each key maps to its canonical name. -/
def subsOk (subs acc : List (String × String)) : Prop :=
  ∀ p ∈ acc, dictLookup subs p.1 = some p.2

theorem subsOk_nil (subs : List (String × String)) : subsOk subs [] := by
  intro p hp
  cases hp

theorem mem_dictInsert_of_mem {acc : List (String × String)}
    {k nm k' nm' : String} (h : (k, nm) ∈ acc) (h2 : nm' = nm ∨ k ≠ k') :
    (k, nm) ∈ dictInsert acc k' nm' := by
  unfold dictInsert
  split
  · refine List.mem_map.mpr ⟨(k, nm), h, ?_⟩
    by_cases hk : k = k'
    · subst hk
      rcases h2 with h2 | h2
      · simp [h2]
      · exact absurd rfl h2
    · simp [hk]
  · exact List.mem_append_left _ h

theorem self_mem_dictInsert (acc : List (String × String)) (k v : String) :
    (k, v) ∈ dictInsert acc k v := by
  unfold dictInsert
  split
  · rename_i hany
    rcases List.any_eq_true.mp hany with ⟨p, hp, hpk⟩
    refine List.mem_map.mpr ⟨p, hp, ?_⟩
    simp [hpk]
  · exact List.mem_append_right _ (by simp)

theorem subsOk_dictInsert {subs acc : List (String × String)}
    {k' nm' : String} (h : subsOk subs acc)
    (h2 : dictLookup subs k' = some nm') :
    subsOk subs (dictInsert acc k' nm') := by
  intro p hp
  unfold dictInsert at hp
  split at hp
  · rcases List.mem_map.mp hp with ⟨q, hq, hfq⟩
    by_cases hqk : q.1 = k'
    · simp only [hqk, beq_self_eq_true, if_pos] at hfq
      rw [← hfq]
      exact h2
    · simp only [beq_iff_eq, hqk, if_neg, not_false_iff] at hfq
      rw [← hfq]
      exact h q hq
  · rcases List.mem_append.mp hp with hp | hp
    · exact h p hp
    · simp only [List.mem_singleton] at hp
      rw [hp]
      exact h2

theorem keys_dictInsert_of_any {acc : List (String × String)} {k v : String}
    (h : acc.any (fun p => p.1 == k) = true) :
    (dictInsert acc k v).map Prod.fst = acc.map Prod.fst := by
  unfold dictInsert
  rw [if_pos h, List.map_map]
  refine List.map_congr_left ?_
  intro p _
  by_cases hp : p.1 = k
  · simp [hp]
  · simp [hp]

theorem nodup_keys_dictInsert {acc : List (String × String)} {k v : String}
    (h : (acc.map Prod.fst).Nodup) :
    ((dictInsert acc k v).map Prod.fst).Nodup := by
  by_cases hany : acc.any (fun p => p.1 == k) = true
  · rw [keys_dictInsert_of_any hany]
    exact h
  · unfold dictInsert
    rw [if_neg hany, List.map_append]
    refine List.Nodup.append h (by simp) ?_
    intro a ha hb
    simp only [List.map_cons, List.map_nil, List.mem_singleton] at hb
    subst hb
    rcases List.mem_map.mp ha with ⟨p, hp, hpk⟩
    exact hany (List.any_eq_true.mpr ⟨p, hp, by simp [hpk]⟩)

theorem dictLookup_isSome_of_mem {subs : List (String × String)}
    {q : String × String} (h : q ∈ subs) : (dictLookup subs q.1).isSome := by
  unfold dictLookup
  rw [Option.isSome_map']
  refine List.find?_isSome.mpr ⟨q, List.mem_reverse.mpr h, by simp⟩

/-! ### Resolution-loop lemmas -/

theorem resolveLoop_mem (subs : List (String × String)) (k nm : String)
    (vs : List String) :
    ∀ acc scopes : List (String × String),
      subsOk subs acc → (k, nm) ∈ acc →
      resolveLoop subs vs acc = .ok scopes → (k, nm) ∈ scopes := by
  induction vs with
  | nil =>
    intro acc scopes _ hmem hok
    simp only [resolveLoop] at hok
    injection hok with h
    rwa [← h]
  | cons v vs ih =>
    intro acc scopes hacc hmem hok
    simp only [resolveLoop] at hok
    split at hok
    · rename_i name hd
      refine ih _ _ (subsOk_dictInsert hacc hd) (mem_dictInsert_of_mem hmem ?_) hok
      by_cases hkv : k = v
      · left
        have h1 := hacc _ hmem
        rw [hkv, hd] at h1
        injection h1 with h1
      · right
        exact hkv
    · split at hok
      · rename_i q hf
        split at hok
        · rename_i name hq
          refine ih _ _ (subsOk_dictInsert hacc hq) (mem_dictInsert_of_mem hmem ?_) hok
          by_cases hkq : k = q.1
          · left
            have h1 := hacc _ hmem
            rw [hkq, hq] at h1
            injection h1 with h1
          · right
            exact hkq
        · cases hok
      · cases hok

theorem resolveLoop_nodup (subs : List (String × String)) (vs : List String) :
    ∀ acc scopes : List (String × String),
      (acc.map Prod.fst).Nodup →
      resolveLoop subs vs acc = .ok scopes → (scopes.map Prod.fst).Nodup := by
  induction vs with
  | nil =>
    intro acc scopes h hok
    simp only [resolveLoop] at hok
    injection hok with e
    rwa [← e]
  | cons v vs ih =>
    intro acc scopes h hok
    simp only [resolveLoop] at hok
    split at hok
    · exact ih _ _ (nodup_keys_dictInsert h) hok
    · split at hok
      · split at hok
        · exact ih _ _ (nodup_keys_dictInsert h) hok
        · cases hok
      · cases hok

theorem resolveLoop_error (subs : List (String × String)) (v : String)
    (hid : dictLookup subs v = none)
    (hname : subs.reverse.find? (fun q => pyLower q.2 == pyLower v) = none)
    (vs : List String) :
    ∀ acc : List (String × String), v ∈ vs →
      ∃ u, u ∈ vs ∧ resolveLoop subs vs acc = .error (unknownSubMsg u) := by
  induction vs with
  | nil =>
    intro acc hmem
    cases hmem
  | cons v0 vs ih =>
    intro acc hmem
    rcases List.mem_cons.mp hmem with he | hv
    · subst he
      exact ⟨v, List.mem_cons_self _ _, by simp only [resolveLoop, hid, hname]⟩
    · cases hd : dictLookup subs v0 with
      | some name0 =>
        rcases ih _ hv with ⟨u, hu, heq⟩
        refine ⟨u, List.mem_cons_of_mem _ hu, ?_⟩
        simp only [resolveLoop, hd]
        exact heq
      | none =>
        cases hf : subs.reverse.find? (fun q => pyLower q.2 == pyLower v0) with
        | some q =>
          have hqs : (dictLookup subs q.1).isSome :=
            dictLookup_isSome_of_mem
              (List.mem_reverse.mp (List.mem_of_find?_eq_some hf))
          rcases Option.isSome_iff_exists.mp hqs with ⟨name1, hq1⟩
          rcases ih _ hv with ⟨u, hu, heq⟩
          refine ⟨u, List.mem_cons_of_mem _ hu, ?_⟩
          simp only [resolveLoop, hd, hf, hq1]
          exact heq
        | none =>
          exact ⟨v0, List.mem_cons_self _ _, by simp only [resolveLoop, hd, hf]⟩

theorem resolveLoop_resolves (subs : List (String × String)) (v : String)
    (vs : List String) :
    ∀ acc scopes : List (String × String),
      subsOk subs acc → v ∈ vs →
      resolveLoop subs vs acc = .ok scopes →
      (∀ name, dictLookup subs v = some name → (v, name) ∈ scopes) ∧
      (dictLookup subs v = none →
        ∀ q, subs.reverse.find? (fun p => pyLower p.2 == pyLower v) = some q →
          ∀ name, dictLookup subs q.1 = some name → (q.1, name) ∈ scopes) := by
  induction vs with
  | nil =>
    intro acc scopes _ hmem _
    cases hmem
  | cons v0 vs ih =>
    intro acc scopes hacc hmem hok
    simp only [resolveLoop] at hok
    split at hok
    · rename_i name0 hd0
      have hacc' := subsOk_dictInsert hacc hd0
      rcases List.mem_cons.mp hmem with he | hv
      · subst he
        constructor
        · intro name hn
          rw [hd0] at hn
          injection hn with hn
          subst hn
          exact resolveLoop_mem subs v name0 vs _ _ hacc'
            (self_mem_dictInsert acc v name0) hok
        · intro hnone
          rw [hd0] at hnone
          cases hnone
      · exact ih _ _ hacc' hv hok
    · rename_i hd0
      split at hok
      · rename_i q hf0
        split at hok
        · rename_i name1 hq1
          have hacc' := subsOk_dictInsert hacc hq1
          rcases List.mem_cons.mp hmem with he | hv
          · subst he
            constructor
            · intro name hn
              rw [hd0] at hn
              cases hn
            · intro _ q' hf' name hn
              rw [hf0] at hf'
              injection hf' with hf'
              subst hf'
              rw [hq1] at hn
              injection hn with hn
              subst hn
              exact resolveLoop_mem subs q.1 name1 vs _ _ hacc'
                (self_mem_dictInsert acc q.1 name1) hok
          · exact ih _ _ hacc' hv hok
        · cases hok
      · cases hok

/-! ### Claim C1: Azure status fallback -/

/-- The status rule as the spec words it: the power-state field whenever it
is present, else the provisioning-state field if present, else "unknown". -/
def specStatusC1 (vm : AzureVm) : String :=
  match vm.powerState with
  | some s => s
  | none =>
    match vm.provisioningState with
    | some s => s
    | none => "unknown"

/-- Claim C1, counterexample: a VM whose power-state field is present but
equal to `""` gets status `"unknown"` from the code (Python `or` treats
`""` as falsy), while the spec rule demands `""`. -/
theorem azure_status_claim_counterexample :
    (mapAzureVm "sub-id-1" "Prod"
        ⟨none, none, none, some "", none⟩).status ≠
      specStatusC1 ⟨none, none, none, some "", none⟩ := by
  decide

/-- Claim C1 (amended): the mapped record's status equals the power-state
field if that field is present and non-empty; else the provisioning-state
field if present; else the literal string "unknown". -/
theorem azure_status_fallback (subId subName : String) (vm : AzureVm) :
    (∀ s, vm.powerState = some s → s ≠ "" →
      (mapAzureVm subId subName vm).status = s) ∧
    (vm.powerState = none ∨ vm.powerState = some "" →
      ∀ s, vm.provisioningState = some s →
        (mapAzureVm subId subName vm).status = s) ∧
    (vm.powerState = none ∨ vm.powerState = some "" →
      vm.provisioningState = none →
      (mapAzureVm subId subName vm).status = "unknown") := by
  refine ⟨?_, ?_, ?_⟩
  · intro s hs hne
    simp [mapAzureVm, AzureVm.statusOf, hs, hne]
  · rintro (hp | hp) s hs <;> simp [mapAzureVm, AzureVm.statusOf, hp, hs]
  · rintro (hp | hp) hs <;> simp [mapAzureVm, AzureVm.statusOf, hp, hs]

/-- Claim C1, witness: the three arms of the amended fallback rule at
concrete VMs. -/
theorem azure_status_fallback_witness :
    (mapAzureVm "i" "n"
      ⟨none, none, none, some "VM running", some "Succeeded"⟩).status =
        "VM running" ∧
    (mapAzureVm "i" "n"
      ⟨none, none, none, some "", some "Succeeded"⟩).status = "Succeeded" ∧
    (mapAzureVm "i" "n" ⟨none, none, none, none, none⟩).status = "unknown" :=
  ⟨(azure_status_fallback "i" "n" _).1 "VM running" rfl (by decide),
   (azure_status_fallback "i" "n" _).2.1 (Or.inr rfl) "Succeeded" rfl,
   (azure_status_fallback "i" "n" _).2.2 (Or.inl rfl) rfl⟩

/-! ### Claim C2: optional fields in CSV output -/

theorem pyOrOptS_empty_iff (o : Option String) :
    pyOrOptS o "" = "" ↔ o = none ∨ o = some "" := by
  cases o with
  | none => simp [pyOrOptS]
  | some s => by_cases h : s = "" <;> simp [pyOrOptS, h]

/-- Claim C2, counterexample: a VM carrying the tag `owner = ""` renders an
empty owner column although the tag key is present in the source data. -/
theorem optional_empty_claim_counterexample :
    ¬(((mapAzureVm "sub-id-1" "Prod"
          ⟨some (some [("owner", "")]), none, none, some "running",
            none⟩).to_row.getD 5 "" = "") ↔
      pyDictGet (AzureVm.effTags
          ⟨some (some [("owner", "")]), none, none, some "running", none⟩)
        "owner" = none) := by
  decide

/-- Claim C2 (amended): for both providers, each optional column (owner,
cleardata, environment) of the CSV row is the empty string iff the
corresponding tag/label key is absent from the VM's effective tag dict or
carries the empty string as its value. -/
theorem optional_empty_iff (subId subName : String) (vm : AzureVm)
    (project : String) (inst : GcpInstance) :
    ((mapAzureVm subId subName vm).to_row.getD 5 "" = "" ↔
      pyDictGet vm.effTags "owner" = none ∨
        pyDictGet vm.effTags "owner" = some "") ∧
    ((mapAzureVm subId subName vm).to_row.getD 6 "" = "" ↔
      pyDictGet vm.effTags "cleardata" = none ∨
        pyDictGet vm.effTags "cleardata" = some "") ∧
    ((mapAzureVm subId subName vm).to_row.getD 7 "" = "" ↔
      pyDictGet vm.effTags "environment" = none ∨
        pyDictGet vm.effTags "environment" = some "") ∧
    ((mapGcpInstance project inst).to_row.getD 5 "" = "" ↔
      pyDictGet inst.effLabels "owner" = none ∨
        pyDictGet inst.effLabels "owner" = some "") ∧
    ((mapGcpInstance project inst).to_row.getD 6 "" = "" ↔
      pyDictGet inst.effLabels "cleardata" = none ∨
        pyDictGet inst.effLabels "cleardata" = some "") ∧
    ((mapGcpInstance project inst).to_row.getD 7 "" = "" ↔
      pyDictGet inst.effLabels "environment" = none ∨
        pyDictGet inst.effLabels "environment" = some "") := by
  exact ⟨pyOrOptS_empty_iff _, pyOrOptS_empty_iff _, pyOrOptS_empty_iff _,
    pyOrOptS_empty_iff _, pyOrOptS_empty_iff _, pyOrOptS_empty_iff _⟩

/-! ### Claim C5: GCP adapter with zero projects -/

/-- Claim C5: with an empty project list the GCP adapter returns the empty
record set and invokes no external command (empty command trace). -/
theorem gcp_no_projects_no_commands (w : World) :
    fetchGcpVms w [] = ([], Except.ok []) := rfl

/-! ### Claim C10: absent or null tags/labels -/

/-- Claim C10: for an Azure VM whose tags field is absent or null, and a GCP
instance whose labels field is absent or null, record construction yields
all three optional fields unset. -/
theorem absent_tags_unset (subId subName : String) (vm : AzureVm)
    (project : String) (inst : GcpInstance) :
    (vm.tags = none ∨ vm.tags = some none →
      (mapAzureVm subId subName vm).owner = none ∧
      (mapAzureVm subId subName vm).cleardata = none ∧
      (mapAzureVm subId subName vm).environment = none) ∧
    (inst.labels = none ∨ inst.labels = some none →
      (mapGcpInstance project inst).owner = none ∧
      (mapGcpInstance project inst).cleardata = none ∧
      (mapGcpInstance project inst).environment = none) := by
  constructor
  · rintro (h | h) <;>
      simp [mapAzureVm, AzureVm.effTags, pyDictGet, h, Option.join]
  · rintro (h | h) <;>
      simp [mapGcpInstance, GcpInstance.effLabels, pyDictGet, h, Option.join]

/-- Claim C10, witness: a null-tagged Azure VM and a labels-less GCP
instance both map to records with all three optional fields unset. -/
theorem absent_tags_unset_witness :
    (mapAzureVm "i" "n" ⟨some none, none, none, none, none⟩).owner = none ∧
    (mapAzureVm "i" "n" ⟨some none, none, none, none, none⟩).cleardata =
      none ∧
    (mapAzureVm "i" "n" ⟨some none, none, none, none, none⟩).environment =
      none ∧
    (mapGcpInstance "p" ⟨none, none, none⟩).owner = none ∧
    (mapGcpInstance "p" ⟨none, none, none⟩).cleardata = none ∧
    (mapGcpInstance "p" ⟨none, none, none⟩).environment = none := by
  have hA := (absent_tags_unset "i" "n" ⟨some none, none, none, none, none⟩
    "p" ⟨none, none, none⟩).1 (Or.inr rfl)
  have hG := (absent_tags_unset "i" "n" ⟨some none, none, none, none, none⟩
    "p" ⟨none, none, none⟩).2 (Or.inl rfl)
  exact ⟨hA.1, hA.2.1, hA.2.2, hG.1, hG.2.1, hG.2.2⟩

/-! ### Claim C3: exact-ID precedence in subscription resolution -/

/-- Claim C3: a requested value that is an exact key of the subscription
dict resolves to that ID with its canonical name, regardless of any
case-insensitive name match; a value that is not a key but matches a
subscription name case-insensitively resolves to the matched
subscription's canonical ID and name. -/
theorem subscription_resolution_precedence
    (subs : List (String × String)) (requested : List String)
    (scopes : List (String × String)) (v : String)
    (hmem : v ∈ requested)
    (hok : resolveRequested (some requested) subs = .ok scopes) :
    (∀ name, dictLookup subs v = some name → (v, name) ∈ scopes) ∧
    (dictLookup subs v = none →
      ∀ q, subs.reverse.find? (fun p => pyLower p.2 == pyLower v) = some q →
        ∀ name, dictLookup subs q.1 = some name → (q.1, name) ∈ scopes) := by
  cases requested with
  | nil => cases hmem
  | cons r rs =>
    exact resolveLoop_resolves subs v (r :: rs) [] scopes (subsOk_nil subs)
      hmem hok

/-- Claim C3, witness: `"id2"` is both a subscription ID and (modulo case)
the display name of subscription `id1`; the exact ID wins. A second
request resolves the name `"PROD"` to its subscription's canonical pair. -/
theorem subscription_resolution_precedence_witness :
    resolveRequested (some ["id2"]) [("id1", "ID2"), ("id2", "Dev")] =
      .ok [("id2", "Dev")] ∧
    ("id2", "Dev") ∈ [("id2", "Dev")] ∧
    resolveRequested (some ["PROD"]) [("id1", "Prod")] =
      .ok [("id1", "Prod")] ∧
    ("id1", "Prod") ∈ [("id1", "Prod")] := by
  refine ⟨rfl, ?_, rfl, ?_⟩
  · exact (subscription_resolution_precedence [("id1", "ID2"), ("id2", "Dev")]
      ["id2"] [("id2", "Dev")] "id2" (by decide) rfl).1 "Dev" rfl
  · exact (subscription_resolution_precedence [("id1", "Prod")] ["PROD"]
      [("id1", "Prod")] "PROD" (by decide) rfl).2 rfl ("id1", "Prod") rfl
      "Prod" rfl

/-! ### Claim C4: unknown subscription aborts the Azure fetch -/

/-- Claim C4: a requested value matching neither a subscription ID nor,
case-insensitively, a subscription name makes resolution fail with the
unknown-subscription error, so no scopes are resolved and the whole Azure
fetch returns an error (no records, no per-item skip). -/
theorem unknown_subscription_aborts
    (w : World) (accounts : List Account) (requested : List String)
    (v : String)
    (hacc : w.azAccountList = .ok accounts)
    (hmem : v ∈ requested)
    (hid : dictLookup (buildSubs accounts) v = none)
    (hname : (buildSubs accounts).reverse.find?
      (fun q => pyLower q.2 == pyLower v) = none) :
    (∃ u, u ∈ requested ∧
      resolveRequested (some requested) (buildSubs accounts) =
        .error (unknownSubMsg u)) ∧
    (∃ u, fetchAzureVms w (some requested) = .error (unknownSubMsg u)) ∧
    (azureRecordsOf w (some requested)).1 = [] := by
  cases requested with
  | nil => cases hmem
  | cons r rs =>
    rcases resolveLoop_error (buildSubs accounts) v hid hname (r :: rs) []
      hmem with ⟨u, hu, herr⟩
    have hres : resolveRequested (some (r :: rs)) (buildSubs accounts) =
        .error (unknownSubMsg u) := herr
    have hfetch : fetchAzureVms w (some (r :: rs)) =
        .error (unknownSubMsg u) := by
      simp only [fetchAzureVms, hacc, hres]
    refine ⟨⟨u, hu, hres⟩, ⟨u, hfetch⟩, ?_⟩
    simp only [azureRecordsOf, hfetch]

/-- A context with one Azure subscription and no VMs anywhere. -/
def w4 : World :=
  ⟨.ok [⟨"id1", some "Prod"⟩], fun _ => .ok [], fun _ => .ok []⟩

/-- Claim C4, witness: requesting `"nope"` against the single subscription
`("id1", "Prod")` aborts the Azure fetch with the unknown-subscription
error and yields zero records. -/
theorem unknown_subscription_aborts_witness :
    resolveRequested (some ["nope"]) (buildSubs [⟨"id1", some "Prod"⟩]) =
      .error (unknownSubMsg "nope") ∧
    fetchAzureVms w4 (some ["nope"]) = .error (unknownSubMsg "nope") ∧
    (azureRecordsOf w4 (some ["nope"])).1 = [] :=
  ⟨rfl, rfl,
   (unknown_subscription_aborts w4 [⟨"id1", some "Prod"⟩] ["nope"] "nope"
     rfl (by decide) rfl rfl).2.2⟩

/-! ### Claim C9: each subscription resolved at most once -/

/-- Claim C9: the resolved scopes carry pairwise-distinct subscription IDs,
so a subscription requested several times (by ID, by name, or by
differently cased names) contributes exactly one scope. -/
theorem resolved_scopes_nodup
    (subs : List (String × String)) (requested : Option (List String))
    (scopes : List (String × String))
    (hsubs : (subs.map Prod.fst).Nodup)
    (hok : resolveRequested requested subs = .ok scopes) :
    (scopes.map Prod.fst).Nodup := by
  cases requested with
  | none =>
    injection hok with h
    rwa [← h]
  | some vs =>
    cases vs with
    | nil =>
      injection hok with h
      rwa [← h]
    | cons r rs =>
      exact resolveLoop_nodup subs (r :: rs) [] scopes (by simp) hok

/-- Claim C9, witness: the same subscription requested by its ID and by two
case variants of its name resolves to a single scope with distinct IDs. -/
theorem resolved_scopes_nodup_witness :
    resolveRequested (some ["id1", "prod", "PROD"]) [("id1", "Prod")] =
      .ok [("id1", "Prod")] ∧
    (([("id1", "Prod")] : List (String × String)).map Prod.fst).Nodup :=
  ⟨rfl,
   resolved_scopes_nodup [("id1", "Prod")] (some ["id1", "prod", "PROD"])
     [("id1", "Prod")] (by decide) rfl⟩

/-! ### Claim C6: aggregate record order -/

/-- Claim C6: the aggregate record sequence is exactly the Azure adapter's
records followed by the GCP adapter's records, each in its own order. -/
theorem aggregate_order (w : World) (f p : Option (List String))
    (a g : List VmRecord)
    (ha : fetchAzureVms w f = .ok a)
    (hg : (fetchGcpVms w (p.getD [])).2 = .ok g) :
    recordsOf w f p = a ++ g := by
  simp [recordsOf, azureRecordsOf, gcpRecordsOf, ha, hg]

/-- A fully-tagged Azure VM used by the orchestrator witnesses. -/
def vmA : AzureVm :=
  ⟨some (some [("owner", "alice")]), some "rg1", some "vm1",
   some "VM running", none⟩

/-- A GCP instance used by the orchestrator witnesses. -/
def instG : GcpInstance := ⟨none, some "g1", some "RUNNING"⟩

/-- A context where both providers succeed with one VM each. -/
def w6 : World :=
  ⟨.ok [⟨"id1", some "Prod"⟩], fun _ => .ok [vmA], fun _ => .ok [instG]⟩

/-- Claim C6, witness: with one Azure VM and one GCP instance the aggregate
is the Azure record followed by the GCP record. -/
theorem aggregate_order_witness :
    recordsOf w6 none (some ["p1"]) =
      [mapAzureVm "id1" "Prod" vmA] ++ [mapGcpInstance "p1" instG] :=
  aggregate_order w6 none (some ["p1"]) [mapAzureVm "id1" "Prod" vmA]
    [mapGcpInstance "p1" instG] rfl rfl

/-! ### Claim C7: exit status and file writing -/

/-- Claim C7: an empty aggregate exits with status 1 and writes no file;
a non-empty aggregate writes the CSV (header plus one row per record) and
exits with status 0. -/
theorem empty_aggregate_behavior (w : World) (f p : Option (List String)) :
    (recordsOf w f p = [] →
      (mainRun w f p).exitCode = 1 ∧ (mainRun w f p).written = none) ∧
    (recordsOf w f p ≠ [] →
      (mainRun w f p).exitCode = 0 ∧
      (mainRun w f p).written = some (csvOf (recordsOf w f p))) := by
  constructor
  · intro h
    simp [mainRun, h]
  · intro h
    simp [mainRun, h]

/-- A context with no subscriptions and no projects. -/
def wEmpty : World := ⟨.ok [], fun _ => .ok [], fun _ => .ok []⟩

/-- Claim C7, witness: the empty context exits 1 with no file; the
two-provider context exits 0 and writes the CSV of its records. -/
theorem empty_aggregate_behavior_witness :
    recordsOf wEmpty none none = [] ∧
    (mainRun wEmpty none none).exitCode = 1 ∧
    (mainRun wEmpty none none).written = none ∧
    recordsOf w6 none (some ["p1"]) ≠ [] ∧
    (mainRun w6 none (some ["p1"])).exitCode = 0 ∧
    (mainRun w6 none (some ["p1"])).written =
      some (csvOf (recordsOf w6 none (some ["p1"]))) := by
  have h1 := (empty_aggregate_behavior wEmpty none none).1 rfl
  have hne : recordsOf w6 none (some ["p1"]) ≠ [] := by decide
  have h2 := (empty_aggregate_behavior w6 none (some ["p1"])).2 hne
  exact ⟨rfl, h1.1, h1.2, hne, h2.1, h2.2⟩

/-! ### Claim C8: per-provider failure isolation -/

/-- Claim C8: when one provider's fetch raises, main logs a diagnostic
naming that provider on the error stream, still collects the other
provider, and if the survivor yields at least one record the run exits 0
writing only the survivor's records. -/
theorem provider_failure_isolated (w : World) (f p : Option (List String)) :
    (∀ e g, fetchAzureVms w f = .error e →
      (fetchGcpVms w (p.getD [])).2 = .ok g → g ≠ [] →
      (mainRun w f p).exitCode = 0 ∧
      (mainRun w f p).written = some (csvOf g) ∧
      ("Failed to retrieve Azure VMs: " ++ e) ∈
        (mainRun w f p).stderrLines) ∧
    (∀ e a, (fetchGcpVms w (p.getD [])).2 = .error e →
      fetchAzureVms w f = .ok a → a ≠ [] →
      (mainRun w f p).exitCode = 0 ∧
      (mainRun w f p).written = some (csvOf a) ∧
      ("Failed to retrieve GCP VMs: " ++ e) ∈
        (mainRun w f p).stderrLines) := by
  constructor
  · intro e g he hg hne
    have hrec : recordsOf w f p = g := by
      simp [recordsOf, azureRecordsOf, gcpRecordsOf, he, hg]
    have hmr : mainRun w f p =
        ⟨0, some (csvOf g), ["Failed to retrieve Azure VMs: " ++ e]⟩ := by
      simp [mainRun, hrec, hne, azureRecordsOf, gcpRecordsOf, he, hg]
    rw [hmr]
    exact ⟨rfl, rfl, by simp⟩
  · intro e a hg ha hne
    have hrec : recordsOf w f p = a := by
      simp [recordsOf, azureRecordsOf, gcpRecordsOf, ha, hg]
    have hmr : mainRun w f p =
        ⟨0, some (csvOf a), ["Failed to retrieve GCP VMs: " ++ e]⟩ := by
      simp [mainRun, hrec, hne, azureRecordsOf, gcpRecordsOf, ha, hg]
    rw [hmr]
    exact ⟨rfl, rfl, by simp⟩

/-- A context where the Azure CLI fails and GCP succeeds. -/
def wAzFail : World :=
  ⟨.error "az down", fun _ => .error "az down", fun _ => .ok [instG]⟩

/-- A context where Azure succeeds and the gcloud CLI fails. -/
def wGFail : World :=
  ⟨.ok [⟨"id1", some "Prod"⟩], fun _ => .ok [vmA],
   fun _ => .error "gcloud down"⟩

/-- Claim C8, witness: each provider failing alone still exits 0, writes
only the surviving provider's records and logs a provider-naming line. -/
theorem provider_failure_isolated_witness :
    (mainRun wAzFail none (some ["p1"])).exitCode = 0 ∧
    (mainRun wAzFail none (some ["p1"])).written =
      some (csvOf [mapGcpInstance "p1" instG]) ∧
    ("Failed to retrieve Azure VMs: " ++ "az down") ∈
      (mainRun wAzFail none (some ["p1"])).stderrLines ∧
    (mainRun wGFail none (some ["p1"])).exitCode = 0 ∧
    (mainRun wGFail none (some ["p1"])).written =
      some (csvOf [mapAzureVm "id1" "Prod" vmA]) ∧
    ("Failed to retrieve GCP VMs: " ++ "gcloud down") ∈
      (mainRun wGFail none (some ["p1"])).stderrLines := by
  have h1 := (provider_failure_isolated wAzFail none (some ["p1"])).1
    "az down" [mapGcpInstance "p1" instG] rfl rfl (by decide)
  have h2 := (provider_failure_isolated wGFail none (some ["p1"])).2
    "gcloud down" [mapAzureVm "id1" "Prod" vmA] rfl rfl (by decide)
  exact ⟨h1.1, h1.2.1, h1.2.2, h2.1, h2.2.1, h2.2.2⟩

end VmInventory
